import Mathlib

/-!
Shallow embedding of `src/components/highlighting/ui/highlight-renderer.jsx`:
the `HighlightRenderer` component that draws highlight rectangles over
highlighted content and shows a "Remove highlight" tooltip on hover.

Coordinates are modelled as exact rationals.  DOM geometry that the browser
reports at call time (`getBoundingClientRect`, the client rectangles of a
range) is modelled by an ambient `Layout` environment, so that "read fresh at
evaluation time" is visible in the definitions: a function reading geometry
takes the current `Layout` as an argument.  JavaScript reference identity
(`!==`) on DOM objects is modelled by numeric `id` fields.
-/

/-- A 2D point `{left, top}` (type `Position` in `types.js`). -/
structure Position where
  left : ℚ
  top : ℚ
deriving DecidableEq, Repr

/-- An axis-aligned rectangle `{left, top, width, height}` (type `Rect`). -/
structure Rect where
  left : ℚ
  top : ℚ
  width : ℚ
  height : ℚ
deriving DecidableEq, Repr

/-- The `zIndexes` prop: stacking layers for tooltips and highlights. -/
structure ZIndexes where
  belowContent : ℤ
  aboveContent : ℤ
deriving DecidableEq, Repr

/-- A DOM `Range`: an opaque reference (`id` models reference identity) with
the `endContainer` / `endOffset` fields that `render` reads for tooltip
anchoring.  `endContainer` is the id of a DOM node. -/
structure DOMRange where
  id : ℕ
  endContainer : ℕ
  endOffset : ℕ
deriving DecidableEq, Repr

/-- A `DOMHighlight`: an opaque reference (`id` models reference identity)
holding the highlighted `domRange`. -/
structure DOMHighlight where
  id : ℕ
  domRange : DOMRange
deriving DecidableEq, Repr

/-- A DOM `Element`, identified by reference identity only; its geometry lives
in the ambient `Layout`. -/
structure Element where
  id : ℕ
deriving DecidableEq, Repr

/-- The ambient DOM layout at one instant: the current bounding client
rectangle of every element, and the current client rectangles covering every
range's text.  Functions that read geometry fresh take the current `Layout`. -/
structure Layout where
  elementRect : ℕ → Rect
  rangeClientRects : ℕ → List Rect

/-- Modelled from the spec: `rectsForRange` (source `util.js`, function
`getClientRectsForTextInRange`, not included under `src/`): returns the
bounding rectangles covering the given content range, in viewport
coordinates, as reported by the layout engine; possibly multiple for wrapped
lines, possibly zero for a range with no visible extent. -/
def getClientRectsForTextInRange (layout : Layout) (range : DOMRange) : List Rect :=
  layout.rangeClientRects range.id

/-- Modelled from the spec: `toRelativePosition` (source `util.js`, function
`getRelativePosition`, not included under `src/`): subtracts
`originRect.left/top` from `point.left/top`. -/
def getRelativePosition (point : Position) (originRect : Rect) : Position :=
  { left := point.left - originRect.left, top := point.top - originRect.top }

/-- Modelled from the spec: `toRelativeRect` (source `util.js`, function
`getRelativeRect`, not included under `src/`): the same translation applied to
the rectangle's top-left corner; width and height unchanged. -/
def getRelativeRect (rect : Rect) (originRect : Rect) : Rect :=
  { left := rect.left - originRect.left, top := rect.top - originRect.top,
    width := rect.width, height := rect.height }

/-- The browser API `Element.getBoundingClientRect()`: a fresh read of the
element's current rectangle from the ambient layout. -/
def getBoundingClientRect (layout : Layout) (element : Element) : Rect :=
  layout.elementRect element.id

/-- The props of `HighlightRenderer` (callbacks excluded: the
`onRemoveHighlight` callback is modelled by the `Effect` trace of
`handleRemoveHighlight`). -/
structure HighlightRendererProps where
  editable : Bool
  highlight : DOMHighlight
  highlightKey : String
  mouseClientPosition : Option Position
  offsetParent : Element
  zIndexes : ZIndexes

/-- The state of `HighlightRenderer`. -/
structure HighlightRendererState where
  cachedHighlightRects : List Rect
  tooltipIsHovered : Bool
deriving DecidableEq, Repr

/-- `_computeRects`: the rectangles covering the highlighted content, with
coordinates relative to the offset parent. -/
def computeRects (layout : Layout) (props : HighlightRendererProps) : List Rect :=
  let clientRects := getClientRectsForTextInRange layout props.highlight.domRange
  let offsetParentRect := getBoundingClientRect layout props.offsetParent
  clientRects.map (fun rect => getRelativeRect rect offsetParentRect)

/-- The initial state set on mount. -/
def initialState (layout : Layout) (props : HighlightRendererProps) :
    HighlightRendererState :=
  { cachedHighlightRects := computeRects layout props, tooltipIsHovered := false }

/-- `componentWillReceiveProps`.  The second component of the result counts
how many times `this._computeRects` is invoked (0 or 1), so that the
recomputation-trigger policy is part of the embedded behaviour.  The JavaScript
reference comparisons `this.props.highlight !== nextProps.highlight` and
`this.props.offsetParent !== nextProps.offsetParent` are modelled by comparing
the `id` fields. -/
def componentWillReceiveProps (layout : Layout)
    (props nextProps : HighlightRendererProps) (state : HighlightRendererState) :
    HighlightRendererState × ℕ :=
  if props.highlight.id ≠ nextProps.highlight.id ∨
      props.offsetParent.id ≠ nextProps.offsetParent.id then
    ({ state with cachedHighlightRects := computeRects layout nextProps }, 1)
  else
    (state, 0)

/-- An externally observable callback invocation made by the component. -/
inductive Effect where
  | removeHighlight : String → Effect
deriving DecidableEq, Repr

/-- `_handleRemoveHighlight`: calls `this.props.onRemoveHighlight` with
`this.props.highlightKey`.  The returned list records the callback invocations
in order; the state is returned unchanged since the handler performs no
`setState`. -/
def handleRemoveHighlight (props : HighlightRendererProps)
    (state : HighlightRendererState) : List Effect × HighlightRendererState :=
  ([Effect.removeHighlight props.highlightKey], state)

/-- `_handleTooltipMouseEnter`: sets `tooltipIsHovered` to true. -/
def handleTooltipMouseEnter (state : HighlightRendererState) :
    HighlightRendererState :=
  { state with tooltipIsHovered := true }

/-- `_handleTooltipMouseLeave`: sets `tooltipIsHovered` to false. -/
def handleTooltipMouseLeave (state : HighlightRendererState) :
    HighlightRendererState :=
  { state with tooltipIsHovered := false }

/-- `_rectIsHovered`: whether the given mouse position (relative to the offset
parent) is inside the given rectangle (same coordinate space). -/
def rectIsHovered (rect : Rect) (mouseOffsetPosition : Position) : Bool :=
  let positionWithinRect := getRelativePosition mouseOffsetPosition rect
  decide (0 ≤ positionWithinRect.left) && decide (positionWithinRect.left < rect.width) &&
    decide (0 ≤ positionWithinRect.top) && decide (positionWithinRect.top < rect.height)

/-- `_highlightIsHovered`: whether the given mouse position (viewport
coordinates) hovers this highlight.  Reads `offsetParent` from the props and
`cachedHighlightRects` from the state; both are passed explicitly here. -/
def highlightIsHovered (layout : Layout) (offsetParent : Element)
    (cachedHighlightRects : List Rect) (mouseClientPosition : Option Position) :
    Bool :=
  match mouseClientPosition with
  | none => false
  | some pos =>
    let offsetParentRect := getBoundingClientRect layout offsetParent
    let mouseOffsetPosition := getRelativePosition pos offsetParentRect
    cachedHighlightRects.any (fun rect => rectIsHovered rect mouseOffsetPosition)

/-- `_shouldShowTooltip`: whether the "Remove highlight" tooltip is visible. -/
def shouldShowTooltip (layout : Layout) (props : HighlightRendererProps)
    (state : HighlightRendererState) : Bool :=
  if !props.editable then
    false
  else if state.tooltipIsHovered then
    true
  else if highlightIsHovered layout props.offsetParent state.cachedHighlightRects
      props.mouseClientPosition then
    true
  else
    false

/-- One rendered highlight rectangle `<div>`: the inline style fields set by
`render` (`position: absolute` always holds and carries no information). -/
structure RenderedRect where
  width : ℚ
  height : ℚ
  top : ℚ
  left : ℚ
  zIndex : ℤ
deriving DecidableEq, Repr

/-- The rendered `HighlightTooltip`, with the props `render` passes to it. -/
structure RenderedTooltip where
  label : String
  focusNode : ℕ
  focusOffset : ℕ
  offsetParent : ℕ
  zIndex : ℤ
deriving DecidableEq, Repr

/-- The output of `render`: one `<div>` per cached rectangle, in list order,
plus the tooltip when `_shouldShowTooltip` holds. -/
structure RenderOutput where
  highlightRects : List RenderedRect
  tooltip : Option RenderedTooltip
deriving DecidableEq, Repr

/-- `render`. -/
def render (layout : Layout) (props : HighlightRendererProps)
    (state : HighlightRendererState) : RenderOutput :=
  { highlightRects := state.cachedHighlightRects.map (fun rect =>
      { width := rect.width, height := rect.height, top := rect.top,
        left := rect.left, zIndex := props.zIndexes.belowContent }),
    tooltip :=
      if shouldShowTooltip layout props state then
        some { label := "Remove highlight",
               focusNode := props.highlight.domRange.endContainer,
               focusOffset := props.highlight.domRange.endOffset,
               offsetParent := props.offsetParent.id,
               zIndex := props.zIndexes.aboveContent }
      else
        none }

/-! ### Sample values used by witness theorems -/

/-- A concrete rectangle used in witnesses. -/
def sampleRect : Rect := { left := 0, top := 0, width := 10, height := 10 }

/-- A concrete layout used in witnesses: every element sits at the origin and
every range is covered by `sampleRect`. -/
def sampleLayout : Layout :=
  { elementRect := fun _ => { left := 0, top := 0, width := 0, height := 0 },
    rangeClientRects := fun _ => [sampleRect] }

/-- A concrete layout in which every range yields zero rectangles. -/
def sampleEmptyLayout : Layout :=
  { elementRect := fun _ => { left := 0, top := 0, width := 0, height := 0 },
    rangeClientRects := fun _ => [] }

/-- Concrete props used in witnesses. -/
def sampleProps : HighlightRendererProps :=
  { editable := true,
    highlight := { id := 0, domRange := { id := 0, endContainer := 0, endOffset := 0 } },
    highlightKey := "k",
    mouseClientPosition := none,
    offsetParent := { id := 1 },
    zIndexes := { belowContent := 0, aboveContent := 1 } }

/-- `sampleProps` with a new `highlight` reference (different identity) and the
same `offsetParent`. -/
def samplePropsNewHighlight : HighlightRendererProps :=
  { sampleProps with
    highlight := { id := 2, domRange := { id := 0, endContainer := 0, endOffset := 0 } } }

/-- Concrete state used in witnesses. -/
def sampleState : HighlightRendererState :=
  { cachedHighlightRects := [], tooltipIsHovered := false }

/-! ### Helper lemmas -/

/-- Unfolding `rectIsHovered` to the half-open containment proposition. -/
lemma rectIsHovered_eq_true_iff (rect : Rect) (p : Position) :
    rectIsHovered rect p = true ↔
      (rect.left ≤ p.left ∧ p.left < rect.left + rect.width ∧
        rect.top ≤ p.top ∧ p.top < rect.top + rect.height) := by
  unfold rectIsHovered getRelativePosition
  simp only [Bool.and_eq_true, decide_eq_true_eq]
  constructor
  · rintro ⟨⟨⟨h1, h2⟩, h3⟩, h4⟩
    exact ⟨by linarith, by linarith, by linarith, by linarith⟩
  · rintro ⟨h1, h2, h3, h4⟩
    exact ⟨⟨⟨by linarith, by linarith⟩, by linarith⟩, by linarith⟩

/-- A rectangle of zero width or zero height contains no point. -/
lemma rectIsHovered_degenerate_aux (q : Rect) (pos : Position)
    (hq : q.width = 0 ∨ q.height = 0) : rectIsHovered q pos = false := by
  cases h : rectIsHovered q pos with
  | false => rfl
  | true =>
    exfalso
    rw [rectIsHovered_eq_true_iff] at h
    obtain ⟨h1, h2, h3, h4⟩ := h
    rcases hq with h0 | h0
    · rw [h0] at h2; linarith
    · rw [h0] at h4; linarith

/-! ### Claim theorems -/

/-- C1: `_shouldShowTooltip` returns false when `editable` is false regardless
of hover state, true when `editable` and `tooltipIsHovered` both hold even if
the highlight-hover test fails, and otherwise exactly the highlight-hover
result; equivalently it equals `editable && (tooltipHovered || highlightHovered)`. -/
theorem shouldShowTooltip_eq_editable_and_hover (layout : Layout)
    (props : HighlightRendererProps) (state : HighlightRendererState) :
    shouldShowTooltip layout props state =
      (props.editable &&
        (state.tooltipIsHovered ||
          highlightIsHovered layout props.offsetParent state.cachedHighlightRects
            props.mouseClientPosition)) := by
  unfold shouldShowTooltip
  cases props.editable <;> cases state.tooltipIsHovered <;>
    cases hh : highlightIsHovered layout props.offsetParent state.cachedHighlightRects
      props.mouseClientPosition <;> simp [hh]

/-- C2: for a rectangle with nonnegative width and height, `_rectIsHovered`
holds iff `rect.left ≤ p.left < rect.left + rect.width` and
`rect.top ≤ p.top < rect.top + rect.height` (half-open on both axes); in
particular the point `(rect.left + rect.width, rect.top)` on the right edge is
not inside. -/
theorem rectIsHovered_iff_halfOpen (rect : Rect) (p : Position)
    (hw : 0 ≤ rect.width) (hh : 0 ≤ rect.height) :
    (rectIsHovered rect p = true ↔
      (rect.left ≤ p.left ∧ p.left < rect.left + rect.width ∧
        rect.top ≤ p.top ∧ p.top < rect.top + rect.height)) ∧
    rectIsHovered rect { left := rect.left + rect.width, top := rect.top } = false := by
  refine ⟨rectIsHovered_eq_true_iff rect p, ?_⟩
  cases h : rectIsHovered rect { left := rect.left + rect.width, top := rect.top } with
  | false => rfl
  | true =>
    exfalso
    rw [rectIsHovered_eq_true_iff] at h
    obtain ⟨_, h2, _, _⟩ := h
    simp only at h2
    linarith

/-- Witness for C2 at a concrete rectangle and point. -/
theorem rectIsHovered_iff_halfOpen_witness :
    ((rectIsHovered { left := 1, top := 2, width := 10, height := 4 }
        { left := 5, top := 3 } = true ↔
      ((1 : ℚ) ≤ 5 ∧ (5 : ℚ) < 1 + 10 ∧ (2 : ℚ) ≤ 3 ∧ (3 : ℚ) < 2 + 4)) ∧
    rectIsHovered { left := 1, top := 2, width := 10, height := 4 }
        { left := 1 + 10, top := 2 } = false) :=
  rectIsHovered_iff_halfOpen { left := 1, top := 2, width := 10, height := 4 }
    { left := 5, top := 3 } (by norm_num) (by norm_num)

/-- C3: with a present pointer, `_highlightIsHovered` converts the pointer via
the container's bounding rectangle read from the current layout and holds iff
the converted point lies inside at least one cached rectangle; the result is
invariant under permutation of the cached list. -/
theorem highlightIsHovered_present_any (layout : Layout) (offsetParent : Element)
    (rects rects2 : List Rect) (p : Position) (hperm : rects.Perm rects2) :
    (highlightIsHovered layout offsetParent rects (some p) = true ↔
      ∃ r ∈ rects, rectIsHovered r
        (getRelativePosition p (getBoundingClientRect layout offsetParent)) = true) ∧
    highlightIsHovered layout offsetParent rects (some p) =
      highlightIsHovered layout offsetParent rects2 (some p) := by
  constructor
  · simp [highlightIsHovered, List.any_eq_true]
  · simp only [highlightIsHovered]
    cases h2 : rects2.any (fun rect => rectIsHovered rect
        (getRelativePosition p (getBoundingClientRect layout offsetParent))) with
    | false =>
      rw [List.any_eq_false] at h2 ⊢
      intro x hx
      exact h2 x (hperm.mem_iff.mp hx)
    | true =>
      rw [List.any_eq_true] at h2 ⊢
      obtain ⟨x, hx, hfx⟩ := h2
      exact ⟨x, hperm.mem_iff.mpr hx, hfx⟩

/-- Witness for C3 at a concrete layout, container, rectangle list and point. -/
theorem highlightIsHovered_present_any_witness :
    ((highlightIsHovered sampleLayout { id := 0 } [sampleRect]
        (some { left := 5, top := 5 }) = true ↔
      ∃ r ∈ [sampleRect], rectIsHovered r
        (getRelativePosition { left := 5, top := 5 }
          (getBoundingClientRect sampleLayout { id := 0 })) = true) ∧
    highlightIsHovered sampleLayout { id := 0 } [sampleRect]
        (some { left := 5, top := 5 }) =
      highlightIsHovered sampleLayout { id := 0 } [sampleRect]
        (some { left := 5, top := 5 })) :=
  highlightIsHovered_present_any sampleLayout { id := 0 } [sampleRect] [sampleRect]
    { left := 5, top := 5 } (List.Perm.refl _)

/-- C6: with an absent pointer, `_highlightIsHovered` returns false for every
cached list and container; consequently, with an absent pointer and an
unhovered tooltip, `_shouldShowTooltip` is false. -/
theorem highlightIsHovered_absent_false (layout : Layout) (offsetParent : Element)
    (rects : List Rect) (props : HighlightRendererProps)
    (state : HighlightRendererState)
    (hmouse : props.mouseClientPosition = none)
    (htooltip : state.tooltipIsHovered = false) :
    highlightIsHovered layout offsetParent rects none = false ∧
    shouldShowTooltip layout props state = false := by
  refine ⟨rfl, ?_⟩
  unfold shouldShowTooltip
  rw [hmouse, htooltip]
  cases props.editable <;> simp [highlightIsHovered]

/-- Witness for C6 at concrete props and state. -/
theorem highlightIsHovered_absent_false_witness :
    highlightIsHovered sampleLayout { id := 0 } [sampleRect] none = false ∧
    shouldShowTooltip sampleLayout sampleProps sampleState = false :=
  highlightIsHovered_absent_false sampleLayout { id := 0 } [sampleRect]
    sampleProps sampleState rfl rfl

/-- C8: `_computeRects` is deterministic and pure: any two calls that observe
the same range rectangles and the same container bounding rectangle yield
identical rectangle lists, independently of any other part of the props or of
any cache. -/
theorem computeRects_deterministic (layout layout2 : Layout)
    (props props2 : HighlightRendererProps)
    (hrects : getClientRectsForTextInRange layout props.highlight.domRange =
      getClientRectsForTextInRange layout2 props2.highlight.domRange)
    (hcontainer : getBoundingClientRect layout props.offsetParent =
      getBoundingClientRect layout2 props2.offsetParent) :
    computeRects layout props = computeRects layout2 props2 := by
  unfold computeRects
  rw [hrects, hcontainer]

/-- Witness for C8: two recomputations under the same layout agree. -/
theorem computeRects_deterministic_witness :
    computeRects sampleLayout sampleProps = computeRects sampleLayout sampleProps :=
  computeRects_deterministic sampleLayout sampleLayout sampleProps sampleProps rfl rfl

/-- C9: activating the remove affordance invokes `onRemoveHighlight` exactly
once, with exactly the caller-supplied key, and leaves the component state
(cached rectangles and tooltip-hover flag) unchanged. -/
theorem handleRemoveHighlight_forwards_key (props : HighlightRendererProps)
    (state : HighlightRendererState) :
    (handleRemoveHighlight props state).1 =
        [Effect.removeHighlight props.highlightKey] ∧
      (handleRemoveHighlight props state).2 = state :=
  ⟨rfl, rfl⟩

/-- C4: `componentWillReceiveProps` recomputes the cache exactly when the
`highlight` or `offsetParent` reference identity differs: equal identities
leave the state (including `cachedHighlightRects` and `tooltipIsHovered`)
unchanged and invoke `_computeRects` zero times, whatever the other props
(pointer, editable flag, key) do; differing identities replace the cache with
`_computeRects nextProps` in exactly one invocation, leaving
`tooltipIsHovered` unchanged. -/
theorem componentWillReceiveProps_trigger (layout : Layout)
    (props nextProps : HighlightRendererProps) (state : HighlightRendererState) :
    (props.highlight.id = nextProps.highlight.id ∧
        props.offsetParent.id = nextProps.offsetParent.id →
      componentWillReceiveProps layout props nextProps state = (state, 0)) ∧
    (props.highlight.id ≠ nextProps.highlight.id ∨
        props.offsetParent.id ≠ nextProps.offsetParent.id →
      componentWillReceiveProps layout props nextProps state =
        ({ state with cachedHighlightRects := computeRects layout nextProps }, 1)) := by
  constructor
  · rintro ⟨h1, h2⟩
    have hc : ¬(props.highlight.id ≠ nextProps.highlight.id ∨
        props.offsetParent.id ≠ nextProps.offsetParent.id) := by
      push_neg
      exact ⟨h1, h2⟩
    unfold componentWillReceiveProps
    rw [if_neg hc]
  · intro h
    unfold componentWillReceiveProps
    rw [if_pos h]

/-- Witness for C4: same references trigger no recomputation; a new highlight
reference (same container) triggers exactly one. -/
theorem componentWillReceiveProps_trigger_witness :
    componentWillReceiveProps sampleLayout sampleProps sampleProps sampleState =
        (sampleState, 0) ∧
    componentWillReceiveProps sampleLayout sampleProps samplePropsNewHighlight
        sampleState =
      ({ sampleState with
          cachedHighlightRects := computeRects sampleLayout samplePropsNewHighlight },
        1) :=
  ⟨(componentWillReceiveProps_trigger sampleLayout sampleProps sampleProps
      sampleState).1 ⟨rfl, rfl⟩,
   (componentWillReceiveProps_trigger sampleLayout sampleProps
      samplePropsNewHighlight sampleState).2 (Or.inl (by decide))⟩

/-- C5: `_computeRects` is the composition of `getClientRectsForTextInRange`
on the highlight's range with `getRelativeRect` against the container's
current bounding rectangle, mapped over the list; the result has the same
length and order as the range's rectangles, each translated by the container's
origin with width and height unchanged. -/
theorem computeRects_composition (layout : Layout) (props : HighlightRendererProps)
    (i : ℕ) (r : Rect)
    (hr : (getClientRectsForTextInRange layout props.highlight.domRange)[i]? = some r) :
    computeRects layout props =
      (getClientRectsForTextInRange layout props.highlight.domRange).map
        (fun rect =>
          getRelativeRect rect (getBoundingClientRect layout props.offsetParent)) ∧
    (computeRects layout props).length =
      (getClientRectsForTextInRange layout props.highlight.domRange).length ∧
    (computeRects layout props)[i]? =
      some { left := r.left - (getBoundingClientRect layout props.offsetParent).left,
             top := r.top - (getBoundingClientRect layout props.offsetParent).top,
             width := r.width, height := r.height } := by
  refine ⟨rfl, ?_, ?_⟩
  · simp [computeRects]
  · simp [computeRects, List.getElem?_map, hr, getRelativeRect]

/-- Witness for C5 at a concrete layout whose range yields one rectangle. -/
theorem computeRects_composition_witness :
    (computeRects sampleLayout sampleProps =
      (getClientRectsForTextInRange sampleLayout sampleProps.highlight.domRange).map
        (fun rect =>
          getRelativeRect rect
            (getBoundingClientRect sampleLayout sampleProps.offsetParent)) ∧
    (computeRects sampleLayout sampleProps).length =
      (getClientRectsForTextInRange sampleLayout
        sampleProps.highlight.domRange).length ∧
    (computeRects sampleLayout sampleProps)[0]? =
      some { left := sampleRect.left -
               (getBoundingClientRect sampleLayout sampleProps.offsetParent).left,
             top := sampleRect.top -
               (getBoundingClientRect sampleLayout sampleProps.offsetParent).top,
             width := sampleRect.width, height := sampleRect.height }) :=
  computeRects_composition sampleLayout sampleProps 0 sampleRect rfl

/-- C7: a range yielding zero rectangles is not an error: the computed cache
is empty, an empty cache makes `_highlightIsHovered` false for every pointer
position, and `render` emits no highlight rectangles. -/
theorem emptyRange_empty_everywhere (layout : Layout)
    (props : HighlightRendererProps) (state : HighlightRendererState)
    (mp : Option Position)
    (hrange : getClientRectsForTextInRange layout props.highlight.domRange = [])
    (hstate : state.cachedHighlightRects = []) :
    computeRects layout props = [] ∧
    highlightIsHovered layout props.offsetParent state.cachedHighlightRects mp
        = false ∧
    (render layout props state).highlightRects = [] := by
  refine ⟨?_, ?_, ?_⟩
  · simp [computeRects, hrange]
  · rw [hstate]
    cases mp <;> simp [highlightIsHovered]
  · simp [render, hstate]

/-- Witness for C7 at a layout with no rectangles for any range. -/
theorem emptyRange_empty_everywhere_witness :
    (computeRects sampleEmptyLayout sampleProps = [] ∧
    highlightIsHovered sampleEmptyLayout sampleProps.offsetParent
        sampleState.cachedHighlightRects (some { left := 5, top := 5 }) = false ∧
    (render sampleEmptyLayout sampleProps sampleState).highlightRects = []) :=
  emptyRange_empty_everywhere sampleEmptyLayout sampleProps sampleState
    (some { left := 5, top := 5 }) rfl rfl

/-- Filtering out zero-width or zero-height rectangles does not change the
hover disjunction, because such rectangles contain no point. -/
lemma any_rectIsHovered_filter_degenerate (l : List Rect) (mpos : Position) :
    l.any (fun q => rectIsHovered q mpos) =
      (l.filter (fun q => !(decide (q.width = 0) || decide (q.height = 0)))).any
        (fun q => rectIsHovered q mpos) := by
  rw [Bool.eq_iff_iff]
  simp only [List.any_eq_true, List.mem_filter]
  constructor
  · rintro ⟨x, hx, hfx⟩
    refine ⟨x, ⟨hx, ?_⟩, hfx⟩
    by_contra hpx
    have hdeg : x.width = 0 ∨ x.height = 0 := by
      by_contra hnd
      push_neg at hnd
      apply hpx
      simp [hnd.1, hnd.2]
    rw [rectIsHovered_degenerate_aux x mpos hdeg] at hfx
    exact Bool.false_ne_true hfx
  · rintro ⟨x, ⟨hx, _⟩, hfx⟩
    exact ⟨x, hx, hfx⟩

/-- C10: a rectangle with zero width or zero height is never hovered at any
point, and removing all such degenerate rectangles from the cached list leaves
the highlight-hover result unchanged — they never contribute. -/
theorem degenerateRect_never_hovered (r : Rect) (p : Position) (layout : Layout)
    (offsetParent : Element) (rects : List Rect) (mp : Option Position)
    (hdeg : r.width = 0 ∨ r.height = 0) :
    rectIsHovered r p = false ∧
    highlightIsHovered layout offsetParent rects mp =
      highlightIsHovered layout offsetParent
        (rects.filter (fun q => !(decide (q.width = 0) || decide (q.height = 0))))
        mp := by
  refine ⟨rectIsHovered_degenerate_aux r p hdeg, ?_⟩
  cases mp with
  | none => rfl
  | some pos =>
    simp only [highlightIsHovered]
    exact any_rectIsHovered_filter_degenerate rects
      (getRelativePosition pos (getBoundingClientRect layout offsetParent))

/-- Witness for C10 at a zero-width rectangle and a concrete cache. -/
theorem degenerateRect_never_hovered_witness :
    rectIsHovered { left := 0, top := 0, width := 0, height := 5 }
        { left := 0, top := 0 } = false ∧
    highlightIsHovered sampleLayout { id := 0 } [sampleRect] none =
      highlightIsHovered sampleLayout { id := 0 }
        ([sampleRect].filter
          (fun q => !(decide (q.width = 0) || decide (q.height = 0)))) none :=
  degenerateRect_never_hovered { left := 0, top := 0, width := 0, height := 5 }
    { left := 0, top := 0 } sampleLayout { id := 0 } [sampleRect] none (Or.inl rfl)
